import Mathlib

/-!
Shallow embedding of the capability-tagged connection-pool layer of
`src/db/src/lib.rs`, together with models of its two external collaborators
(the deadpool engine and the diesel-async driver), taken from the spec's
interface section where the collaborator's behaviour is not visible in the
source.  The phantom capability type parameter of the Rust code is modelled
as a data value; mutation through `&mut` references is modelled by explicit
state passing.
-/

/-- Capability markers `ReadOnly` / `ReadWrite` (src lines 29–35): two unit
structs used as phantom type parameters, modelled as a two-valued tag. -/
inductive Tag where
  | readOnly
  | readWrite
  deriving DecidableEq, Repr

/-- Native transaction events observable on one physical connection. -/
inductive TxEvent where
  | txBegin
  | txCommit
  | txRollback
  deriving DecidableEq, Repr

/-- The diesel-async native Postgres connection, modelled by the parts of its
state this layer observes: an identity, the history of native transaction
events issued on it, the queries run through it, and the driver's
test-transaction flag set by `begin_test_transaction`. -/
structure AsyncPgConnection where
  id : Nat := 0
  events : List TxEvent := []
  queries : List String := []
  testTx : Bool := false
  deriving DecidableEq, Repr

/-- The driver's error type `diesel::result::Error`, collapsed to the one
shape this layer distinguishes. -/
inductive DieselError where
  | databaseError
  deriving DecidableEq, Repr

/-- Environment facts outside the program text: the outcome of the host
parallelism lookup (`thread::available_parallelism`, which returns an
`io::Result`), whether the pool engine's build step succeeds, and whether the
BEGIN issued by `begin_test_transaction` fails at the database. -/
structure Env where
  availableParallelism : Option Nat
  engineBuildOk : Bool
  beginTestTxFails : Bool

/-- Result of running Rust code that may panic (`.unwrap()`) next to its
normal return value.  A panic aborts the surrounding task; it is distinct
from returning an error. -/
inductive Panics (α : Type) where
  | ok (a : α)
  | panicked (msg : String)

/-- Whether a possibly-panicking computation panicked. -/
def Panics.isPanicked {α : Type} : Panics α → Bool
  | Panics.ok _ => false
  | Panics.panicked _ => true

/-- Modelled from the spec: the driver "must expose the ability to run an
async native transaction that takes a callback receiving a mutable borrow of
itself and returns that callback's result, committing or rolling back based
on success/failure" (spec section 6).  The `lift` argument mirrors the
`E: From<diesel::result::Error>` bound the driver requires so that it can
surface its own BEGIN/COMMIT/ROLLBACK failures in the callback's error type;
this spec-level model of the driver does not generate such failures, so
`lift` is carried but unused.  The callback's in-place mutation of the
borrowed connection is modelled by returning the updated connection next to
its result. -/
def AsyncPgConnection.transaction {R E : Type} (lift : DieselError → E)
    (c : AsyncPgConnection)
    (callback : AsyncPgConnection → AsyncPgConnection × Except E R) :
    AsyncPgConnection × Except E R :=
  let c1 := { c with events := c.events ++ [TxEvent.txBegin] }
  match callback c1 with
  | (c2, Except.ok r) =>
      ({ c2 with events := c2.events ++ [TxEvent.txCommit] }, Except.ok r)
  | (c2, Except.error e) =>
      ({ c2 with events := c2.events ++ [TxEvent.txRollback] }, Except.error e)

/-- Modelled from the driver: `AsyncConnection::begin_test_transaction` opens
a native transaction and marks the connection so that the driver manages it
as a never-committed test transaction.  Like any database round trip it can
fail (diesel returns a `QueryResult`), which the environment flag injects. -/
def AsyncPgConnection.begin_test_transaction (env : Env) (c : AsyncPgConnection) :
    Except DieselError AsyncPgConnection :=
  if env.beginTestTxFails then Except.error DieselError.databaseError
  else Except.ok { c with events := c.events ++ [TxEvent.txBegin], testTx := true }

/-- The post-create hook installed by `Pool::new` (src lines 70–83): when
`test_mode` is set and true it calls `begin_test_transaction` on the freshly
created connection and `.unwrap()`s the result, so a failure there panics
instead of being returned; otherwise the connection is left untouched.  The
hook itself always returns `Ok(())` to the engine. -/
def postCreateHook (env : Env) (test_mode : Option Bool)
    (conn : AsyncPgConnection) : Panics AsyncPgConnection :=
  if test_mode.getD false then
    match conn.begin_test_transaction env with
    | Except.ok c => Panics.ok c
    | Except.error _ => Panics.panicked "called unwrap on an Err value"
  else
    Panics.ok conn

/-- The connection manager built by
`AsyncDieselConnectionManager::<AsyncPgConnection>::new(database_url)`
(src lines 60–62): construction is infallible and simply stores the
connection URL; the URL is not parsed until a connection is established. -/
structure Manager where
  url : String
  deriving DecidableEq, Repr

/-- The engine's build-time error (`deadpool::BuildError`). -/
inductive BuildError where
  | engineFailure
  deriving DecidableEq, Repr

/-- Modelled from the spec: the underlying pool engine, which "must expose a
builder accepting a connection target and a maximum size, returning a build
error on failure", plus "a post-create hook invoked exactly once per newly
constructed physical connection, before it is first handed to any caller"
(spec section 6).  The engine records the manager, the size bound, the
`test_mode` captured by the installed hook closure, the physical connections
created so far, and the ids of the connections the hook has been run on. -/
structure DeadPool where
  manager : Manager
  max_size : Nat
  test_mode : Option Bool
  phys : List AsyncPgConnection := []
  hookRuns : List Nat := []

/-- Modelled from the spec: the engine's build step.  The manager is opaque
to the builder — the connection target it stores is not examined at build
time (connection establishment happens at acquisition, spec section 4.2) —
so success depends only on the engine's own construction. -/
def deadpoolBuild (env : Env) (manager : Manager) (max_size : Nat)
    (test_mode : Option Bool) : Except BuildError DeadPool :=
  if env.engineBuildOk then
    Except.ok { manager := manager, max_size := max_size, test_mode := test_mode }
  else
    Except.error BuildError.engineFailure

/-- Modelled from the spec: the engine creates a physical connection and
invokes the post-create hook on it exactly once, immediately after creation
and before it is first handed to any caller (spec section 6). -/
def createPhysical (env : Env) (p : DeadPool) :
    Panics (DeadPool × AsyncPgConnection) :=
  let fresh : AsyncPgConnection := { id := p.phys.length }
  match postCreateHook env p.test_mode fresh with
  | Panics.panicked m => Panics.panicked m
  | Panics.ok c =>
      Panics.ok
        ({ p with phys := p.phys ++ [c], hookRuns := p.hookRuns ++ [c.id] }, c)

/-- Modelled from the spec: handing out an existing idle physical connection
on a later checkout runs no hook and creates nothing. -/
def checkoutExisting (p : DeadPool) (i : Nat) (h : i < p.phys.length) :
    DeadPool × AsyncPgConnection :=
  (p, p.phys.get ⟨i, h⟩)

/-- `Pool<T>` (src lines 40–46): the deadpool engine plus the phantom
capability marker, modelled as data. -/
structure Pool where
  pool : DeadPool
  rw : Tag

/-- `Pool::<T>::new` (src lines 53–90).  The manager is built infallibly from
the URL; the size bound is
`max_size.unwrap_or(2 * thread::available_parallelism().unwrap().get())` —
note that `unwrap_or` evaluates its default argument eagerly, so the
parallelism lookup is unwrapped (panicking on failure) even when `max_size`
is given; the post-create hook capturing `test_mode` is installed; an engine
build failure is returned to the caller via `?`. -/
def Pool.new (env : Env) (T : Tag) (database_url : String)
    (test_mode : Option Bool) (max_size : Option Nat) :
    Panics (Except BuildError Pool) :=
  let manager : Manager := { url := database_url }
  match env.availableParallelism with
  | none => Panics.panicked "called unwrap on an Err value"
  | some p =>
      match deadpoolBuild env manager (max_size.getD (2 * p)) test_mode with
      | Except.error e => Panics.ok (Except.error e)
      | Except.ok dp => Panics.ok (Except.ok { pool := dp, rw := T })

/-- A deadpool `Object<AsyncPgConnection>`: an owned checkout wrapping one
physical connection, dereferencing to it. -/
structure Object where
  obj : AsyncPgConnection

/-- `PooledConnection<T, C>` (src lines 141–147): the handle plus the phantom
capability marker, modelled as data.  `C` is instantiated with `Object` for
the owned form and with `AsyncPgConnection` itself for the borrowed
`&mut AsyncPgConnection` form (mutation is modelled by value passing). -/
structure PooledConnection (C : Type) where
  conn : C
  rw : Tag

/-- `Pool::get` (src lines 94–101): wraps the checkout returned by the engine
into a `PooledConnection` carrying the pool's own capability marker. -/
def Pool.get (self : Pool) (checkout : Object) : PooledConnection Object :=
  { conn := checkout, rw := self.rw }

/-- `Deref` for the owned form (src lines 193–199): `&*self.conn`, the
physical connection inside the checkout. -/
def PooledConnection.derefOwned (pc : PooledConnection Object) :
    AsyncPgConnection :=
  pc.conn.obj

/-- `DerefMut` for the owned form (src lines 203–207). -/
def PooledConnection.derefMutOwned (pc : PooledConnection Object) :
    AsyncPgConnection :=
  pc.conn.obj

/-- The driver connection's own `AsMut` conversion, a cheap
mutable-to-mutable identity. -/
def AsyncPgConnection.as_mut (c : AsyncPgConnection) : AsyncPgConnection := c

/-- `AsMut` for the owned form (src lines 211–218):
`self.deref_mut().as_mut()`. -/
def PooledConnection.asMutOwned (pc : PooledConnection Object) :
    AsyncPgConnection :=
  pc.derefMutOwned.as_mut

/-- `Deref` for the borrowed form (src lines 224–230): the identity on the
held reference. -/
def PooledConnection.derefBorrowed (pc : PooledConnection AsyncPgConnection) :
    AsyncPgConnection :=
  pc.conn

/-- `DerefMut` for the borrowed form (src lines 236–240): the identity on the
held reference. -/
def PooledConnection.derefMutBorrowed (pc : PooledConnection AsyncPgConnection) :
    AsyncPgConnection :=
  pc.conn

/-- `AsMut` for the borrowed form (src lines 246–252): the identity on the
held reference. -/
def PooledConnection.asMutBorrowed (pc : PooledConnection AsyncPgConnection) :
    AsyncPgConnection :=
  pc.conn

/-- The borrowed, capability-tagged connection built inside `transaction`
(src lines 179–182): wraps the `&mut AsyncPgConnection` the driver hands
back and reuses `self`'s phantom marker (`rw: PhantomData` at the same
`T`). -/
def PooledConnection.borrowedForCallback (self : PooledConnection Object)
    (conn : AsyncPgConnection) : PooledConnection AsyncPgConnection :=
  { conn := conn, rw := self.rw }

/-- `PooledConnection::<T, Object<AsyncPgConnection>>::transaction`
(src lines 155–188): delegates to the driver's native transaction on the
underlying connection, wrapping the borrowed connection the driver provides
into a `PooledConnection` carrying the same capability marker before calling
the callback. -/
def PooledConnection.transaction {R E : Type} (lift : DieselError → E)
    (self : PooledConnection Object)
    (callback : PooledConnection AsyncPgConnection →
      AsyncPgConnection × Except E R) :
    PooledConnection Object × Except E R :=
  match AsyncPgConnection.transaction lift self.conn.obj
      (fun conn => callback (self.borrowedForCallback conn)) with
  | (c, res) => ({ conn := { obj := c }, rw := self.rw }, res)

/-- The two handle forms `PooledConnection` is instantiated at: the owned
checkout `Object<AsyncPgConnection>` and the borrowed
`&mut AsyncPgConnection`. -/
inductive HandleForm where
  | owned
  | borrowed
  deriving DecidableEq, Repr

/-- The `WriteableConnection` impls (src lines 283–292): the owned and the
borrowed `PooledConnection` forms tagged `ReadWrite`, and no others. -/
def WriteableConnection (t : Tag) (f : HandleForm) : Bool :=
  match t, f with
  | Tag.readWrite, HandleForm.owned => true
  | Tag.readWrite, HandleForm.borrowed => true
  | _, _ => false

/-- The `ReadableConnection` impls: the blanket impl for every
`WriteableConnection` (src line 263) together with the two explicit impls for
the `ReadOnly`-tagged owned and borrowed forms (src lines 266–273). -/
def ReadableConnection (t : Tag) (f : HandleForm) : Bool :=
  WriteableConnection t f ||
    (match t, f with
     | Tag.readOnly, HandleForm.owned => true
     | Tag.readOnly, HandleForm.borrowed => true
     | _, _ => false)

/-- The handle forms of `PooledConnection` for which the source defines the
capability-preserving `transaction` method: it is declared only in the impl
block for `PooledConnection<T, Object<AsyncPgConnection>>` (src lines
149–189); no impl block provides it for the borrowed form
`PooledConnection<T, &mut AsyncPgConnection>`. -/
def capabilityTransactionForms : List HandleForm := [HandleForm.owned]

/-- Programs a caller can run against a connection through the wrapper:
queries (via the dereference glue) and native transactions (via the
wrapper's `transaction` or, nested, the driver's own), each of which either
commits or rolls back depending on its body's outcome. -/
inductive Prog where
  | skip
  | query (q : String)
  | seq (a b : Prog)
  | transact (body : Prog) (fails : Bool)

/-- Run a caller program on a connection.  The `transact` case follows the
driver's transaction semantics: BEGIN, run the body, then COMMIT on success
or ROLLBACK on failure. -/
def runProg (c : AsyncPgConnection) : Prog → AsyncPgConnection
  | Prog.skip => c
  | Prog.query q => { c with queries := c.queries ++ [q] }
  | Prog.seq a b => runProg (runProg c a) b
  | Prog.transact body fails =>
      let c1 := { c with events := c.events ++ [TxEvent.txBegin] }
      let c2 := runProg c1 body
      if fails then { c2 with events := c2.events ++ [TxEvent.txRollback] }
      else { c2 with events := c2.events ++ [TxEvent.txCommit] }

/-- The transaction events a program appends to a connection's history
(independent of the connection it is run on). -/
def txDelta : Prog → List TxEvent
  | Prog.skip => []
  | Prog.query _ => []
  | Prog.seq a b => txDelta a ++ txDelta b
  | Prog.transact body fails =>
      TxEvent.txBegin ::
        (txDelta body ++
          [if fails then TxEvent.txRollback else TxEvent.txCommit])

/-- One transaction event's effect on the number of open transactions. -/
def txStep (d : Int) : TxEvent → Int
  | TxEvent.txBegin => d + 1
  | TxEvent.txCommit => d - 1
  | TxEvent.txRollback => d - 1

/-- The number of open transactions after a sequence of events, starting
from `d` open transactions. -/
def depthFrom (d : Int) : List TxEvent → Int
  | [] => d
  | e :: rest => depthFrom (txStep d e) rest

/-- The minimum number of open transactions reached at any point while a
sequence of events runs, starting from `d` open transactions. -/
def minDepthFrom (d : Int) : List TxEvent → Int
  | [] => d
  | e :: rest => min d (minDepthFrom (txStep d e) rest)

/-- A connection URL the driver would reject when establishing a connection:
the Postgres driver accepts only its own URL schemes. -/
def isMalformedUrl (s : String) : Bool :=
  !(s.startsWith "postgres://" || s.startsWith "postgresql://")

/-- Whether pool construction returned a pool (as opposed to a build error or
a panic). -/
def buildSucceeded (r : Panics (Except BuildError Pool)) : Bool :=
  match r with
  | Panics.ok (Except.ok _) => true
  | _ => false

/-- A healthy environment, used in concrete examples: the parallelism lookup
succeeds, the engine builds, and the database accepts the test BEGIN. -/
def envOk : Env :=
  { availableParallelism := some 4, engineBuildOk := true,
    beginTestTxFails := false }

/-- A freshly built engine pool in test mode, used in concrete examples. -/
def dpSample : DeadPool :=
  { manager := { url := "postgres://localhost/app" }, max_size := 8,
    test_mode := some true }

/-- The first physical connection of `dpSample` right after the test-mode
hook ran on it. -/
def connAfterHook : AsyncPgConnection :=
  { events := [TxEvent.txBegin], testTx := true }

/-- `dpSample` after its first physical connection was created. -/
def dpAfterCreate : DeadPool :=
  { dpSample with phys := [connAfterHook], hookRuns := [0] }

/-! ### Helper lemmas -/

theorem runProg_events (p : Prog) :
    ∀ c : AsyncPgConnection, (runProg c p).events = c.events ++ txDelta p := by
  induction p with
  | skip => intro c; simp [runProg, txDelta]
  | query q => intro c; simp [runProg, txDelta]
  | seq a b iha ihb => intro c; simp [runProg, txDelta, iha, ihb]
  | transact body fails ih =>
      intro c
      cases fails <;> simp [runProg, txDelta, ih]

theorem depthFrom_append (l₁ l₂ : List TxEvent) :
    ∀ d, depthFrom d (l₁ ++ l₂) = depthFrom (depthFrom d l₁) l₂ := by
  induction l₁ with
  | nil => intro d; rfl
  | cons e rest ih => intro d; simp [depthFrom, ih]

theorem minDepthFrom_le (l : List TxEvent) : ∀ d, minDepthFrom d l ≤ d := by
  induction l with
  | nil => intro d; exact le_refl d
  | cons e rest ih => intro d; exact min_le_left _ _

theorem minDepthFrom_append (l₁ l₂ : List TxEvent) :
    ∀ d, minDepthFrom d (l₁ ++ l₂) =
      min (minDepthFrom d l₁) (minDepthFrom (depthFrom d l₁) l₂) := by
  induction l₁ with
  | nil =>
      intro d
      simp [minDepthFrom, depthFrom]
      exact minDepthFrom_le l₂ d
  | cons e rest ih =>
      intro d
      simp [minDepthFrom, depthFrom, ih, min_assoc]

theorem txDelta_balanced (p : Prog) :
    ∀ d : Int, depthFrom d (txDelta p) = d ∧ minDepthFrom d (txDelta p) = d := by
  induction p with
  | skip => intro d; exact ⟨rfl, rfl⟩
  | query q => intro d; exact ⟨rfl, rfl⟩
  | seq a b iha ihb =>
      intro d
      refine ⟨?_, ?_⟩
      · rw [txDelta, depthFrom_append, (iha d).1, (ihb d).1]
      · rw [txDelta, minDepthFrom_append, (iha d).2, (iha d).1, (ihb d).2, min_self]
  | transact body fails ih =>
      intro d
      cases fails <;>
        · refine ⟨?_, ?_⟩
          · simp [txDelta, depthFrom, txStep, depthFrom_append, (ih (d + 1)).1]
          · simp [txDelta, minDepthFrom, depthFrom, txStep, minDepthFrom_append,
              (ih (d + 1)).1, (ih (d + 1)).2]

/-- Running a transaction through the program syntax agrees with the driver's
native transaction on the same body. -/
theorem runProg_transact_eq_driver (c : AsyncPgConnection) (body : Prog)
    (fails : Bool) :
    runProg c (Prog.transact body fails) =
      (AsyncPgConnection.transaction (fun e => e) c
        (fun c1 => (runProg c1 body,
          if fails then Except.error DieselError.databaseError
          else (Except.ok () : Except DieselError Unit)))).1 := by
  cases fails <;> rfl

/-! ### Claim theorems -/

/-- C1: for every capability tag and every callback passed to the owned
form's `transaction`, the borrowed `PooledConnection` handed to the callback
carries exactly the capability tag of the connection that opened the
transaction: the borrowed wrapper is built only from `self`'s tag, the whole
call factors through that construction, and a callback observing its
argument's tag always sees `self`'s tag. -/
theorem c1_transaction_preserves_capability_tag :
    ∀ (self : PooledConnection Object),
      (∀ c : AsyncPgConnection, (self.borrowedForCallback c).rw = self.rw) ∧
      (∀ (R E : Type) (lift : DieselError → E)
          (cb : PooledConnection AsyncPgConnection →
            AsyncPgConnection × Except E R),
        self.transaction lift cb =
          match AsyncPgConnection.transaction lift self.conn.obj
              (fun conn => cb (self.borrowedForCallback conn)) with
          | (c, res) => ({ conn := { obj := c }, rw := self.rw }, res)) ∧
      ((self.transaction (fun e => e)
          (fun pc => (pc.conn, Except.ok pc.rw))).2 = Except.ok self.rw) := by
  intro self
  refine ⟨fun c => rfl, fun R E lift cb => rfl, ?_⟩
  rfl

/-- C2: no `PooledConnection` tagged `ReadOnly` — in either its owned or its
borrowed handle form — satisfies `WriteableConnection`, so a read-only
connection can never meet a bound requiring write capability; the check is a
function of the tag and handle form alone, with no runtime branch and hence
no runtime error kind for capability misuse. -/
theorem c2_readonly_never_writeable :
    ∀ f : HandleForm, WriteableConnection Tag.readOnly f = false := by
  intro f
  cases f <;> rfl

/-- C5: both handle forms of `PooledConnection` implement
`ReadableConnection` when tagged `ReadOnly` and `WriteableConnection` when
tagged `ReadWrite`; every `WriteableConnection` is a `ReadableConnection`
via the blanket rule; and the wiring is identical for the owned and the
borrowed form. -/
theorem c5_capability_wiring :
    ReadableConnection Tag.readOnly HandleForm.owned = true ∧
    ReadableConnection Tag.readOnly HandleForm.borrowed = true ∧
    WriteableConnection Tag.readWrite HandleForm.owned = true ∧
    WriteableConnection Tag.readWrite HandleForm.borrowed = true ∧
    (∀ t f, WriteableConnection t f = true → ReadableConnection t f = true) ∧
    (∀ t, ReadableConnection t HandleForm.owned =
      ReadableConnection t HandleForm.borrowed) ∧
    (∀ t, WriteableConnection t HandleForm.owned =
      WriteableConnection t HandleForm.borrowed) := by
  refine ⟨rfl, rfl, rfl, rfl, ?_, ?_, ?_⟩
  · intro t f h
    cases t <;> cases f <;> simp_all [ReadableConnection, WriteableConnection]
  · intro t; cases t <;> rfl
  · intro t; cases t <;> rfl

/-- C5 witness: the blanket rule applied at a concrete point — the
`ReadWrite`-tagged owned form is readable because it is writeable. -/
theorem c5_capability_wiring_witness :
    ReadableConnection Tag.readWrite HandleForm.owned = true :=
  c5_capability_wiring.2.2.2.2.1 Tag.readWrite HandleForm.owned rfl

/-- C6 counterexample: the capability-preserving `transaction` method is not
available on the borrowed handle form — the source declares it only in the
impl block for the owned form, so the callback cannot re-enter through the
same capability-tagged mechanism. -/
theorem c6_counterexample :
    HandleForm.borrowed ∉ capabilityTransactionForms := by
  decide

/-- C6 amended: the callback may nest transactions re-entrantly only through
the underlying driver's own transaction, reached through the borrowed
wrapper's `DerefMut` (an identity on the held reference) and bounded by the
driver's savepoint support (arbitrary nesting stays balanced); the
capability-preserving wrapper method `transaction` exists only for the
owned handle form, so the nested callback receives the bare connection, not
a capability-tagged wrapper. -/
theorem c6_nested_via_driver_amended :
    ∀ (pc : PooledConnection AsyncPgConnection) (R E : Type)
      (lift : DieselError → E)
      (cb : AsyncPgConnection → AsyncPgConnection × Except E R)
      (p : Prog) (d : Int),
      PooledConnection.derefMutBorrowed pc = pc.conn ∧
      AsyncPgConnection.transaction lift (PooledConnection.derefMutBorrowed pc) cb =
        AsyncPgConnection.transaction lift pc.conn cb ∧
      depthFrom d (txDelta p) = d ∧
      capabilityTransactionForms = [HandleForm.owned] := by
  intro pc R E lift cb p d
  exact ⟨rfl, rfl, (txDelta_balanced p d).1, rfl⟩

/-- C10: for every capability tag and both handle forms, `Deref`, `DerefMut`
and `AsMut` all expose the one underlying native connection and perform no
other computation (for the borrowed form they are the identity on the held
reference), so any program run through the wrapper's dereference behaves
exactly as the same program run on the bare connection. -/
theorem c10_deref_identity :
    ∀ (t : Tag) (o : Object) (c : AsyncPgConnection) (p : Prog),
      PooledConnection.derefOwned { conn := o, rw := t } = o.obj ∧
      PooledConnection.derefMutOwned { conn := o, rw := t } = o.obj ∧
      PooledConnection.asMutOwned { conn := o, rw := t } = o.obj ∧
      PooledConnection.derefBorrowed { conn := c, rw := t } = c ∧
      PooledConnection.derefMutBorrowed { conn := c, rw := t } = c ∧
      PooledConnection.asMutBorrowed { conn := c, rw := t } = c ∧
      runProg (PooledConnection.derefMutOwned { conn := o, rw := t }) p =
        runProg o.obj p ∧
      runProg (PooledConnection.derefMutBorrowed { conn := c, rw := t }) p =
        runProg c p := by
  intro t o c p
  exact ⟨rfl, rfl, rfl, rfl, rfl, rfl, rfl, rfl⟩

/-- C3: for every callback passed to `transaction`, if the callback returns
success the native transaction is committed and `transaction` returns that
success value; if the callback returns an error (of any type `E` equipped
with a conversion from the driver's error type) the transaction is rolled
back and `transaction` returns exactly the callback's error. -/
theorem c3_transaction_commit_ok_rollback_error :
    ∀ (R E : Type) (lift : DieselError → E) (self : PooledConnection Object)
      (cb : PooledConnection AsyncPgConnection → AsyncPgConnection × Except E R),
      (∀ c2 r,
        cb (self.borrowedForCallback
            { self.conn.obj with
                events := self.conn.obj.events ++ [TxEvent.txBegin] }) =
          (c2, Except.ok r) →
        self.transaction lift cb =
          ({ conn := { obj := { c2 with
              events := c2.events ++ [TxEvent.txCommit] } },
             rw := self.rw }, Except.ok r)) ∧
      (∀ c2 e,
        cb (self.borrowedForCallback
            { self.conn.obj with
                events := self.conn.obj.events ++ [TxEvent.txBegin] }) =
          (c2, Except.error e) →
        self.transaction lift cb =
          ({ conn := { obj := { c2 with
              events := c2.events ++ [TxEvent.txRollback] } },
             rw := self.rw }, Except.error e)) := by
  intro R E lift self cb
  constructor
  · intro c2 r h
    simp only [PooledConnection.transaction, AsyncPgConnection.transaction,
      PooledConnection.borrowedForCallback] at h ⊢
    rw [h]
  · intro c2 e h
    simp only [PooledConnection.transaction, AsyncPgConnection.transaction,
      PooledConnection.borrowedForCallback] at h ⊢
    rw [h]

/-- C3 witness: a succeeding callback commits and its value is returned; a
failing callback rolls back and its error is returned unchanged. -/
theorem c3_transaction_witness :
    PooledConnection.transaction (fun e => e)
        ({ conn := { obj := {} }, rw := Tag.readWrite } : PooledConnection Object)
        (fun pc => (pc.conn, Except.ok (7 : Nat))) =
      ({ conn := { obj := { events := [TxEvent.txBegin, TxEvent.txCommit] } },
         rw := Tag.readWrite }, Except.ok 7) ∧
    PooledConnection.transaction (fun e => e)
        ({ conn := { obj := {} }, rw := Tag.readOnly } : PooledConnection Object)
        (fun pc => (pc.conn,
          (Except.error DieselError.databaseError : Except DieselError Nat))) =
      ({ conn := { obj := { events := [TxEvent.txBegin, TxEvent.txRollback] } },
         rw := Tag.readOnly }, Except.error DieselError.databaseError) := by
  constructor
  · exact (c3_transaction_commit_ok_rollback_error Nat DieselError
      (fun e => e) { conn := { obj := {} }, rw := Tag.readWrite }
      (fun pc => (pc.conn, Except.ok (7 : Nat)))).1 _ 7 rfl
  · exact (c3_transaction_commit_ok_rollback_error Nat DieselError
      (fun e => e) { conn := { obj := {} }, rw := Tag.readOnly }
      (fun pc => (pc.conn,
        (Except.error DieselError.databaseError : Except DieselError Nat)))).2
      _ DieselError.databaseError rfl


/-- C4: the post-create hook runs exactly once per physical connection,
immediately after it is created and before it is first handed to any caller
(a checkout of an existing connection runs no hook); with `test_mode` true
the hook opens exactly one native transaction on the fresh connection, and
that transaction is never committed for the rest of the connection's life —
for every program of queries and (arbitrarily nested) transactions run
through the wrapper afterwards, the open-transaction depth counted from just
after the test BEGIN never drops below one; with `test_mode` unset or false
the hook opens no transaction. -/
theorem c4_test_mode_hook :
    ∀ (env : Env) (fresh : AsyncPgConnection) (dp : DeadPool) (p : Prog),
      (env.beginTestTxFails = false →
        postCreateHook env (some true) fresh =
          Panics.ok { fresh with
                        events := fresh.events ++ [TxEvent.txBegin],
                        testTx := true }) ∧
      postCreateHook env none fresh = Panics.ok fresh ∧
      postCreateHook env (some false) fresh = Panics.ok fresh ∧
      (∀ c0, postCreateHook env dp.test_mode { id := dp.phys.length } =
          Panics.ok c0 →
        createPhysical env dp =
          Panics.ok ({ dp with
                         phys := dp.phys ++ [c0],
                         hookRuns := dp.hookRuns ++ [c0.id] }, c0)) ∧
      (∀ (i : Nat) (h : i < dp.phys.length),
        checkoutExisting dp i h = (dp, dp.phys.get ⟨i, h⟩)) ∧
      (runProg { fresh with
                   events := fresh.events ++ [TxEvent.txBegin],
                   testTx := true } p).events =
        fresh.events ++ [TxEvent.txBegin] ++ txDelta p ∧
      minDepthFrom 1 (txDelta p) = 1 ∧
      (∀ d : Int, depthFrom d (txDelta p) = d ∧ minDepthFrom d (txDelta p) = d) := by
  intro env fresh dp p
  refine ⟨?_, rfl, rfl, ?_, fun i h => rfl, ?_, (txDelta_balanced p 1).2,
    txDelta_balanced p⟩
  · intro hb
    simp [postCreateHook, AsyncPgConnection.begin_test_transaction, hb]
  · intro c0 h
    simp [createPhysical, h]
  · rw [runProg_events]

/-- C4 witness: with test mode on and a healthy database, the hook opens
exactly one transaction on a fresh connection, creating a physical connection
runs the hook once, a checkout of the existing connection changes nothing,
and a sample program of nested transactions leaves the test transaction
open. -/
theorem c4_test_mode_hook_witness :
    postCreateHook envOk (some true) {} = Panics.ok connAfterHook ∧
    createPhysical envOk dpSample = Panics.ok (dpAfterCreate, connAfterHook) ∧
    checkoutExisting dpAfterCreate 0 (by decide) =
      (dpAfterCreate, connAfterHook) ∧
    minDepthFrom 1
      (txDelta (Prog.transact (Prog.transact Prog.skip true) false)) = 1 := by
  refine ⟨?_, ?_, ?_, ?_⟩
  · exact (c4_test_mode_hook envOk {} dpSample Prog.skip).1 rfl
  · exact (c4_test_mode_hook envOk {} dpSample Prog.skip).2.2.2.1
      connAfterHook rfl
  · exact (c4_test_mode_hook envOk {} dpAfterCreate Prog.skip).2.2.2.2.1
      0 (by decide)
  · exact (c4_test_mode_hook envOk {} dpSample
      (Prog.transact (Prog.transact Prog.skip true) false)).2.2.2.2.2.2.1

/-- C7 counterexample: two collaborator failures during pool construction
and connection setup are not surfaced as errors.  A failing host-parallelism
lookup makes `Pool::new` panic (the default for `max_size` is computed and
unwrapped eagerly, even though `max_size` was given), and a failing
`begin_test_transaction` makes the post-create hook panic via `.unwrap()`
instead of reporting the error. -/
theorem c7_counterexample :
    (Pool.new
        { availableParallelism := none, engineBuildOk := true,
          beginTestTxFails := false }
        Tag.readWrite "postgres://localhost/app" none (some 4)).isPanicked =
      true ∧
    (postCreateHook
        { availableParallelism := some 4, engineBuildOk := true,
          beginTestTxFails := true }
        (some true) {}).isPanicked = true := by
  exact ⟨rfl, rfl⟩

/-- C7 amended: an error from the engine's build step is returned to the
caller unchanged, and when the database accepts the test BEGIN the hook
reports no failure; however, a host-parallelism lookup failure makes
`Pool::new` panic (even when `max_size` is given, because the default is
computed eagerly), and a test-transaction setup failure makes the hook
panic — neither is returned as an error. -/
theorem c7_error_propagation_amended :
    ∀ (env : Env) (T : Tag) (url : String) (tm : Option Bool)
      (ms : Option Nat) (p : Nat),
      (env.availableParallelism = some p → env.engineBuildOk = false →
        Pool.new env T url tm ms =
          Panics.ok (Except.error BuildError.engineFailure)) ∧
      (env.availableParallelism = none →
        (Pool.new env T url tm ms).isPanicked = true) ∧
      (env.beginTestTxFails = true → ∀ c : AsyncPgConnection,
        (postCreateHook env (some true) c).isPanicked = true) ∧
      (env.beginTestTxFails = false →
        ∀ (c : AsyncPgConnection) (tmx : Option Bool),
          (postCreateHook env tmx c).isPanicked = false) := by
  intro env T url tm ms p
  refine ⟨?_, ?_, ?_, ?_⟩
  · intro hp hb
    simp [Pool.new, deadpoolBuild, hp, hb]
  · intro hp
    simp [Pool.new, hp, Panics.isPanicked]
  · intro hb c
    simp [postCreateHook, AsyncPgConnection.begin_test_transaction, hb,
      Panics.isPanicked]
  · intro hb c tmx
    cases htm : tmx.getD false <;>
      simp [postCreateHook, AsyncPgConnection.begin_test_transaction, hb,
        htm, Panics.isPanicked]

/-- C7 witness: the amended propagation at concrete inputs — the engine's
build error is returned, the two panic paths panic, and a healthy hook run
reports nothing. -/
theorem c7_error_propagation_witness :
    Pool.new
        { availableParallelism := some 2, engineBuildOk := false,
          beginTestTxFails := false }
        Tag.readOnly "postgres://localhost/app" none none =
      Panics.ok (Except.error BuildError.engineFailure) ∧
    (Pool.new
        { availableParallelism := none, engineBuildOk := true,
          beginTestTxFails := false }
        Tag.readOnly "postgres://localhost/app" none none).isPanicked = true ∧
    (postCreateHook
        { availableParallelism := some 2, engineBuildOk := true,
          beginTestTxFails := true }
        (some true) {}).isPanicked = true ∧
    (postCreateHook envOk (some true) {}).isPanicked = false := by
  refine ⟨?_, ?_, ?_, ?_⟩
  · exact (c7_error_propagation_amended
      { availableParallelism := some 2, engineBuildOk := false,
        beginTestTxFails := false }
      Tag.readOnly "postgres://localhost/app" none none 2).1 rfl rfl
  · exact (c7_error_propagation_amended
      { availableParallelism := none, engineBuildOk := true,
        beginTestTxFails := false }
      Tag.readOnly "postgres://localhost/app" none none 0).2.1 rfl
  · exact (c7_error_propagation_amended
      { availableParallelism := some 2, engineBuildOk := true,
        beginTestTxFails := true }
      Tag.readOnly "postgres://localhost/app" none none 2).2.2.1 rfl {}
  · exact (c7_error_propagation_amended envOk
      Tag.readOnly "postgres://localhost/app" none none 4).2.2.2 rfl {}
      (some true)

/-- C8 counterexample: a malformed `database_url` does not make construction
fail — the manager stores the URL without parsing it, so with a working
engine the empty (malformed) URL still yields a pool. -/
theorem c8_counterexample :
    isMalformedUrl "" = true ∧
    buildSucceeded
      (Pool.new
        { availableParallelism := some 2, engineBuildOk := true,
          beginTestTxFails := false }
        Tag.readWrite "" none (some 1)) = true := by
  exact ⟨rfl, rfl⟩

/-- C8 amended: `Pool::new` returns a `BuildError`, synchronously and
without internal retry, exactly when the underlying engine's build step
fails; the `database_url` is stored unparsed by the infallible manager
constructor, so construction succeeds or fails independently of the URL's
content — a malformed URL surfaces later, at connection establishment, not
at build time. -/
theorem c8_build_failure_amended :
    ∀ (env : Env) (T : Tag) (url₁ url₂ : String) (tm : Option Bool)
      (ms : Option Nat) (p : Nat),
      (env.availableParallelism = some p →
        buildSucceeded (Pool.new env T url₁ tm ms) = env.engineBuildOk ∧
        (env.engineBuildOk = false →
          Pool.new env T url₁ tm ms =
            Panics.ok (Except.error BuildError.engineFailure))) ∧
      buildSucceeded (Pool.new env T url₁ tm ms) =
        buildSucceeded (Pool.new env T url₂ tm ms) := by
  intro env T url₁ url₂ tm ms p
  constructor
  · intro hp
    cases hb : env.engineBuildOk <;>
      simp [Pool.new, deadpoolBuild, hp, hb, buildSucceeded]
  · cases hp : env.availableParallelism <;>
      cases hb : env.engineBuildOk <;>
        simp [Pool.new, deadpoolBuild, hp, hb, buildSucceeded]

/-- C8 witness: the amended statement at concrete inputs — with a failing
engine the build error is returned, and build success is the same for a
well-formed and for a malformed URL. -/
theorem c8_build_failure_witness :
    buildSucceeded
      (Pool.new
        { availableParallelism := some 3, engineBuildOk := false,
          beginTestTxFails := false }
        Tag.readOnly "postgres://localhost/app" none none) = false ∧
    Pool.new
        { availableParallelism := some 3, engineBuildOk := false,
          beginTestTxFails := false }
        Tag.readOnly "postgres://localhost/app" none none =
      Panics.ok (Except.error BuildError.engineFailure) ∧
    buildSucceeded
        (Pool.new envOk Tag.readOnly "postgres://localhost/app" none none) =
      buildSucceeded (Pool.new envOk Tag.readOnly "not a url" none none) := by
  refine ⟨?_, ?_, ?_⟩
  · exact ((c8_build_failure_amended
      { availableParallelism := some 3, engineBuildOk := false,
        beginTestTxFails := false }
      Tag.readOnly "postgres://localhost/app" "" none none 3).1 rfl).1
  · exact ((c8_build_failure_amended
      { availableParallelism := some 3, engineBuildOk := false,
        beginTestTxFails := false }
      Tag.readOnly "postgres://localhost/app" "" none none 3).1 rfl).2 rfl
  · exact (c8_build_failure_amended envOk Tag.readOnly
      "postgres://localhost/app" "not a url" none none 4).2

/-- C9: for every pool that is actually built, `max_size` unset means the
pool's maximum size is exactly twice the host's available parallel execution
units, and `max_size` given means exactly that value is used. -/
theorem c9_max_size :
    ∀ (env : Env) (T : Tag) (url : String) (tm : Option Bool) (p : Nat),
      env.availableParallelism = some p → env.engineBuildOk = true →
      Pool.new env T url tm none =
        Panics.ok (Except.ok
          { pool := { manager := { url := url }, max_size := 2 * p,
                      test_mode := tm },
            rw := T }) ∧
      ∀ n : Nat, Pool.new env T url tm (some n) =
        Panics.ok (Except.ok
          { pool := { manager := { url := url }, max_size := n,
                      test_mode := tm },
            rw := T }) := by
  intro env T url tm p hp hb
  constructor
  · simp [Pool.new, deadpoolBuild, hp, hb]
  · intro n
    simp [Pool.new, deadpoolBuild, hp, hb]

/-- C9 witness: with four parallel units, an unset `max_size` yields a pool
bound of eight; an explicit `max_size` of five yields five. -/
theorem c9_max_size_witness :
    Pool.new envOk Tag.readWrite "postgres://localhost/app" (some true) none =
      Panics.ok (Except.ok
        { pool := { manager := { url := "postgres://localhost/app" },
                    max_size := 8, test_mode := some true },
          rw := Tag.readWrite }) ∧
    Pool.new envOk Tag.readWrite "postgres://localhost/app" (some true)
        (some 5) =
      Panics.ok (Except.ok
        { pool := { manager := { url := "postgres://localhost/app" },
                    max_size := 5, test_mode := some true },
          rw := Tag.readWrite }) := by
  constructor
  · exact (c9_max_size envOk Tag.readWrite "postgres://localhost/app"
      (some true) 4 rfl rfl).1
  · exact (c9_max_size envOk Tag.readWrite "postgres://localhost/app"
      (some true) 4 rfl rfl).2 5
